import Mathlib

/-!
Verification of the configuration-resolution module `config/CConfig.py` of
robotframework-robotlog2db.

The module is shallowly embedded: the Python dictionary `self.__dictConfig`
becomes an association list over a small value type (Python stores strings,
`None`, and one list of strings in it); the runtime environment the code
queries (`platform.system()`, `os.name`, `sys.executable`, `os.path.isfile`,
`os.path.normpath`, `os.path.abspath`, `os.path.expandvars`,
`pypandoc.get_pandoc_path()`) is a record of abstract functions/values, so
that every theorem quantifies over all environments; construction
(`CConfig.__init__`, which raises on failure) becomes a function into
`Except String CConfig`.
-/

namespace RobotLog2DB

/-- Values stored in the Python dict `self.__dictConfig`: strings, `None`,
and one literal list of strings (`arInstallRequires`). -/
inductive PyVal where
  | vStr : String → PyVal
  | vNone : PyVal
  | vList : List String → PyVal
deriving DecidableEq, Repr

/-- The configuration dictionary, as an insertion-ordered association list
(Python dicts preserve insertion order). -/
abbrev Dict := List (String × PyVal)

/-- `k in d` for a Python dict. -/
def dictContains (d : Dict) (k : String) : Bool :=
  d.any (fun p => p.1 == k)

/-- `d[k] = v` for a Python dict: overwrite if the key is present, append
otherwise. -/
def dictSet (d : Dict) (k : String) (v : PyVal) : Dict :=
  if dictContains d k then d.map (fun p => if p.1 == k then (k, v) else p)
  else d ++ [(k, v)]

/-- `d[k]` lookup, `none` when the key is absent. -/
def dictGet (d : Dict) (k : String) : Option PyVal :=
  (d.find? (fun p => p.1 == k)).map Prod.snd

/-- Read a string value from the dict (the code only does this for
`sPackageName`, which always holds a string). -/
def dictGetStr (d : Dict) (k : String) : String :=
  match dictGet d k with
  | some (PyVal.vStr s) => s
  | _ => ""

/-- The runtime environment observed by `CConfig`: operating-system facts,
interpreter location, and the external collaborators (filesystem existence
check, path normalization, environment-variable expansion, pandoc
discovery).  `get_pandoc_path` is `.error e` when `pypandoc` raises an
exception whose string form is `e`. -/
structure Env where
  sOSName : String
  sPlatformSystem : String
  sPythonPath : String
  sPython : String
  sPythonVersion : String
  get_pandoc_path : Except String String
  isFile : String → Bool
  expandvars : String → String
  normpath : String → String
  abspath : String → String

/-- `CConfig.__init__` lines 82-102: the reference path entry and the static
metadata entries, written one `self.__dictConfig[...] = ...` at a time into
the initially empty dict. -/
def initDict (sReferencePath : String) : Dict :=
  let d : Dict := []
  let d := dictSet d "sReferencePath" (PyVal.vStr sReferencePath)
  let d := dictSet d "sPackageName" (PyVal.vStr "RobotResults2DB")
  let d := dictSet d "sVersion" (PyVal.vStr "1.0.0")
  let d := dictSet d "sAuthor" (PyVal.vStr "Tran Duy Ngoan")
  let d := dictSet d "sAuthorEMail" (PyVal.vStr "Ngoan.TranDuy@vn.bosch.com")
  let d := dictSet d "sDescription" (PyVal.vStr "Package for importing robot result(s) to TestResultWebApp database")
  let d := dictSet d "sLongDescriptionContentType" (PyVal.vStr "text/markdown")
  let d := dictSet d "sURL" (PyVal.vStr "https://github.com/test-fullautomation/robotframework-testresultwebapptool")
  let d := dictSet d "sProgrammingLanguage" (PyVal.vStr "Programming Language :: Python :: 3")
  let d := dictSet d "sLicence" (PyVal.vStr "License :: OSI Approved :: Apache Software License")
  let d := dictSet d "sOperatingSystem" (PyVal.vStr "Operating System :: OS Independent")
  let d := dictSet d "sPythonRequires" (PyVal.vStr ">=3.0")
  let d := dictSet d "sDevelopmentStatus" (PyVal.vStr "Development Status :: 4 - Beta")
  let d := dictSet d "sIntendedAudience" (PyVal.vStr "Intended Audience :: Developers")
  let d := dictSet d "sTopic" (PyVal.vStr "Topic :: Software Development")
  let d := dictSet d "arInstallRequires" (PyVal.vList ["sphinx", "pypandoc", "colorama"])
  d

/-- The failure message of `__InitConfig` for an unrecognized platform
(line 151). -/
def osNotSupportedMsg (env : Env) : String :=
  "Operating system " ++ env.sPlatformSystem ++ " (" ++ env.sOSName ++ ") not supported"

/-- `__InitConfig` lines 154-211: the code shared by the Windows and the
Linux branch, from the `sLaTeXInterpreter` existence check to the final
`return True, "Repository setup done"`.  The four extra arguments are the
variables the platform branch assigned. -/
def initConfigTail (env : Env) (sReferencePath : String) (d : Dict)
    (SPHINXBUILD sInstalledPackageFolder sInstalledPackageDocFolder : String)
    (sLaTeXInterpreter0 : String) : Dict × Bool × String :=
  let sLaTeXInterpreter : PyVal :=
    if env.isFile sLaTeXInterpreter0 == false then PyVal.vNone
    else PyVal.vStr sLaTeXInterpreter0
  if env.isFile SPHINXBUILD == false then
    (d, false, "Missing Sphinx \x27" ++ SPHINXBUILD ++ "\x27")
  else
    let d := dictSet d "SPHINXBUILD" (PyVal.vStr SPHINXBUILD)
    let d := dictSet d "sPython" (PyVal.vStr env.sPython)
    let d := dictSet d "sLaTeXInterpreter" sLaTeXInterpreter
    let d := dictSet d "sInstalledPackageFolder" (PyVal.vStr sInstalledPackageFolder)
    let d := dictSet d "sInstalledPackageDocFolder" (PyVal.vStr sInstalledPackageDocFolder)
    let sDocumentationBuilder := env.normpath (sReferencePath ++ "/sphinx-makeall.py")
    let d := dictSet d "sDocumentationBuilder" (PyVal.vStr sDocumentationBuilder)
    let SOURCEDIR := env.normpath (sReferencePath ++ "/doc")
    let d := dictSet d "SOURCEDIR" (PyVal.vStr SOURCEDIR)
    let BUILDDIR := env.normpath (SOURCEDIR ++ "/_build")
    let d := dictSet d "BUILDDIR" (PyVal.vStr BUILDDIR)
    let sHTMLOutputFolder := env.normpath (BUILDDIR ++ "/html")
    let d := dictSet d "sHTMLOutputFolder" (PyVal.vStr sHTMLOutputFolder)
    let d := dictSet d "sReadMe_rst" (PyVal.vStr (env.normpath (sReferencePath ++ "/README.rst")))
    let d := dictSet d "sReadMe_md" (PyVal.vStr (env.normpath (sReferencePath ++ "/README.md")))
    let d := dictSet d "sSetupBuildFolder" (PyVal.vStr (env.normpath (sReferencePath ++ "/build")))
    let d := dictSet d "sSetupBuildLibFolder" (PyVal.vStr (env.normpath (sReferencePath ++ "/build/lib")))
    let d := dictSet d "sSetupBuildLibDocFolder" (PyVal.vStr (env.normpath (sReferencePath ++ "/build/lib/" ++ dictGetStr d "sPackageName" ++ "_doc")))
    let d := dictSet d "sSetupDistFolder" (PyVal.vStr (env.normpath (sReferencePath ++ "/dist")))
    let d := dictSet d "sEggInfoFolder" (PyVal.vStr (env.normpath (sReferencePath ++ "/" ++ dictGetStr d "sPackageName" ++ ".egg-info")))
    (d, true, "Repository setup done")

/-- `CConfig.__InitConfig` lines 117-211: pandoc discovery, the platform
branch, then `initConfigTail`.  Returns the updated dict together with the
`(bSuccess, sResult)` pair of the Python method. -/
def initConfig (env : Env) (sReferencePath : String) (d0 : Dict) : Dict × Bool × String :=
  let sPythonPath := env.sPythonPath
  match env.get_pandoc_path with
  | Except.error ex => (d0, false, ex)
  | Except.ok sPandoc =>
    let d := dictSet d0 "sPandoc" (PyVal.vStr sPandoc)
    if env.sPlatformSystem == "Windows" then
      let SPHINXBUILD := sPythonPath ++ "/Scripts/sphinx-build.exe"
      let sInstalledPackageFolder := sPythonPath ++ "/Lib/site-packages/" ++ dictGetStr d "sPackageName"
      let sInstalledPackageDocFolder := sPythonPath ++ "/Lib/site-packages/" ++ dictGetStr d "sPackageName" ++ "_doc"
      let sLaTeXInterpreter := env.normpath (env.expandvars "%ROBOTLATEXPATH%/miktex/bin/x64/pdflatex.exe")
      initConfigTail env sReferencePath d SPHINXBUILD sInstalledPackageFolder sInstalledPackageDocFolder sLaTeXInterpreter
    else if env.sPlatformSystem == "Linux" then
      let SPHINXBUILD := sPythonPath ++ "/sphinx-build"
      let sInstalledPackageFolder := sPythonPath ++ "/../lib/python3.9/site-packages/" ++ dictGetStr d "sPackageName"
      let sInstalledPackageDocFolder := sPythonPath ++ "/../lib/python3.9/site-packages/" ++ dictGetStr d "sPackageName" ++ "_doc"
      let sLaTeXInterpreter := env.normpath (env.expandvars "$\x7bROBOTLATEXPATH\x7d/miktex/bin/x64/pdflatex")
      initConfigTail env sReferencePath d SPHINXBUILD sInstalledPackageFolder sInstalledPackageDocFolder sLaTeXInterpreter
    else
      (d, false, osNotSupportedMsg env)

/-- The constructed object: the normalized absolute reference path
(`self.__sReferencePath`) and the configuration dict. -/
structure CConfig where
  sReferencePath : String
  dictConfig : Dict
deriving DecidableEq, Repr

deriving instance DecidableEq for Except

/-- `CConfig.__init__` lines 80-110: normalize the reference path, populate
the static entries, run `__InitConfig`, and raise (here: `Except.error`)
when it reports failure. -/
def CConfig.init (env : Env) (sReferencePath : String) : Except String CConfig :=
  let refPath := env.normpath (env.abspath sReferencePath)
  let d0 := initDict refPath
  let r := initConfig env refPath d0
  if r.2.1 != true then Except.error r.2.2
  else Except.ok { sReferencePath := refPath, dictConfig := r.1 }

/-- What `CConfig.Get` does, observably: the returned value (`vNone` models
Python `None`), whether `printerror` wrote to the error stream, and whether
the remediation dump (the header line plus `PrintConfig`) went to standard
output. -/
structure GetOut where
  ret : PyVal
  errorPrinted : Bool
  configPrinted : Bool
deriving DecidableEq, Repr

/-- `CConfig.Get` lines 226-236: on a missing or omitted name, print an
error and the whole table and return `None`; otherwise return the stored
value. -/
def CConfig.Get (c : CConfig) (sName : Option String) : GetOut :=
  match sName with
  | none => { ret := PyVal.vNone, errorPrinted := true, configPrinted := true }
  | some n =>
    match dictGet c.dictConfig n with
    | none => { ret := PyVal.vNone, errorPrinted := true, configPrinted := true }
    | some v => { ret := v, errorPrinted := false, configPrinted := false }

/-- `str(...)` of a stored value, as printed by `PrintConfig`. -/
def pyStr : PyVal → String
  | PyVal.vStr s => s
  | PyVal.vNone => "None"
  | PyVal.vList l => "[" ++ String.intercalate ", " (l.map (fun s => "\x27" ++ s ++ "\x27")) ++ "]"

/-- Python `str.rjust`. -/
def rjust (s : String) (n : Nat) (c : Char) : String :=
  if n ≤ s.length then s else String.mk (List.replicate (n - s.length) c) ++ s

/-- `CConfig.PrintConfig` lines 216-223: one output line per stored key, the
key right-justified to width 30. -/
def CConfig.PrintConfig (c : CConfig) : List String :=
  c.dictConfig.map (fun p => rjust p.1 30 ' ' ++ " : " ++ pyStr p.2)

/-- `CConfig.Get` as a state transformer on the object: the method reads
`self.__dictConfig` and never assigns to it, so the resulting state is the
input state. -/
def CConfig.GetS (c : CConfig) (sName : Option String) : GetOut × CConfig :=
  (c.Get sName, c)

/-- `CConfig.PrintConfig` as a state transformer on the object: the method
only reads `self.__dictConfig`. -/
def CConfig.PrintConfigS (c : CConfig) : List String × CConfig :=
  (c.PrintConfig, c)

/-- `os.path.normpath(os.path.abspath(arg))`: the stored reference path. -/
def refPathOf (env : Env) (arg : String) : String :=
  env.normpath (env.abspath arg)

/-- The documentation-build executable path computed by the platform branch
of `__InitConfig`. -/
def sphinxBuildOf (env : Env) : String :=
  if env.sPlatformSystem == "Windows" then env.sPythonPath ++ "/Scripts/sphinx-build.exe"
  else env.sPythonPath ++ "/sphinx-build"

/-- The LaTeX interpreter path computed by the platform branch of
`__InitConfig`. -/
def latexPathOf (env : Env) : String :=
  if env.sPlatformSystem == "Windows" then
    env.normpath (env.expandvars "%ROBOTLATEXPATH%/miktex/bin/x64/pdflatex.exe")
  else
    env.normpath (env.expandvars "$\x7bROBOTLATEXPATH\x7d/miktex/bin/x64/pdflatex")

/-- The installed-package folder computed by the platform branch of
`__InitConfig`. -/
def installedPkgOf (env : Env) : String :=
  if env.sPlatformSystem == "Windows" then
    env.sPythonPath ++ "/Lib/site-packages/" ++ "RobotResults2DB"
  else
    env.sPythonPath ++ "/../lib/python3.9/site-packages/" ++ "RobotResults2DB"

/-- The configuration dict after a successful construction, in insertion
order, as a function of the environment, the stored reference path and the
discovered pandoc path. -/
def successDict (env : Env) (refPath sPandoc : String) : Dict :=
  [ ("sReferencePath", PyVal.vStr refPath),
    ("sPackageName", PyVal.vStr "RobotResults2DB"),
    ("sVersion", PyVal.vStr "1.0.0"),
    ("sAuthor", PyVal.vStr "Tran Duy Ngoan"),
    ("sAuthorEMail", PyVal.vStr "Ngoan.TranDuy@vn.bosch.com"),
    ("sDescription", PyVal.vStr "Package for importing robot result(s) to TestResultWebApp database"),
    ("sLongDescriptionContentType", PyVal.vStr "text/markdown"),
    ("sURL", PyVal.vStr "https://github.com/test-fullautomation/robotframework-testresultwebapptool"),
    ("sProgrammingLanguage", PyVal.vStr "Programming Language :: Python :: 3"),
    ("sLicence", PyVal.vStr "License :: OSI Approved :: Apache Software License"),
    ("sOperatingSystem", PyVal.vStr "Operating System :: OS Independent"),
    ("sPythonRequires", PyVal.vStr ">=3.0"),
    ("sDevelopmentStatus", PyVal.vStr "Development Status :: 4 - Beta"),
    ("sIntendedAudience", PyVal.vStr "Intended Audience :: Developers"),
    ("sTopic", PyVal.vStr "Topic :: Software Development"),
    ("arInstallRequires", PyVal.vList ["sphinx", "pypandoc", "colorama"]),
    ("sPandoc", PyVal.vStr sPandoc),
    ("SPHINXBUILD", PyVal.vStr (sphinxBuildOf env)),
    ("sPython", PyVal.vStr env.sPython),
    ("sLaTeXInterpreter",
      if env.isFile (latexPathOf env) == false then PyVal.vNone
      else PyVal.vStr (latexPathOf env)),
    ("sInstalledPackageFolder", PyVal.vStr (installedPkgOf env)),
    ("sInstalledPackageDocFolder", PyVal.vStr (installedPkgOf env ++ "_doc")),
    ("sDocumentationBuilder", PyVal.vStr (env.normpath (refPath ++ "/sphinx-makeall.py"))),
    ("SOURCEDIR", PyVal.vStr (env.normpath (refPath ++ "/doc"))),
    ("BUILDDIR", PyVal.vStr (env.normpath (env.normpath (refPath ++ "/doc") ++ "/_build"))),
    ("sHTMLOutputFolder", PyVal.vStr (env.normpath (env.normpath (env.normpath (refPath ++ "/doc") ++ "/_build") ++ "/html"))),
    ("sReadMe_rst", PyVal.vStr (env.normpath (refPath ++ "/README.rst"))),
    ("sReadMe_md", PyVal.vStr (env.normpath (refPath ++ "/README.md"))),
    ("sSetupBuildFolder", PyVal.vStr (env.normpath (refPath ++ "/build"))),
    ("sSetupBuildLibFolder", PyVal.vStr (env.normpath (refPath ++ "/build/lib"))),
    ("sSetupBuildLibDocFolder", PyVal.vStr (env.normpath (refPath ++ "/build/lib/" ++ "RobotResults2DB" ++ "_doc"))),
    ("sSetupDistFolder", PyVal.vStr (env.normpath (refPath ++ "/dist"))),
    ("sEggInfoFolder", PyVal.vStr (env.normpath (refPath ++ "/" ++ "RobotResults2DB" ++ ".egg-info"))) ]

/-- Auxiliary scan for `mentions`: does `sub` occur at some position of the
character list. -/
def mentionsAux (sub : List Char) : List Char → Bool
  | [] => sub.isPrefixOf []
  | c :: cs => sub.isPrefixOf (c :: cs) || mentionsAux sub cs

/-- Whether `msg` contains `sub` as a substring (used to state that a
failure message does or does not name the operating system). -/
def mentions (msg sub : String) : Bool :=
  mentionsAux sub.data msg.data

/-- The shape invariant claimed by the specification for the value column of
the config table: every stored value is a string or `None` — in particular
never a value of any other shape such as a list. -/
def valuesStrOrNone (c : CConfig) : Prop :=
  ∀ p ∈ c.dictConfig, (∃ s, p.2 = PyVal.vStr s) ∨ p.2 = PyVal.vNone

/-- A Linux environment in which every queried path exists and pandoc is
discoverable; path normalization is the identity. -/
def envLinuxFull : Env :=
  { sOSName := "posix", sPlatformSystem := "Linux", sPythonPath := "/usr/bin",
    sPython := "/usr/bin/python3", sPythonVersion := "3.9.5",
    get_pandoc_path := Except.ok "/usr/bin/pandoc",
    isFile := fun _ => true, expandvars := id, normpath := id, abspath := id }

/-- The configuration produced by a successful construction in
`envLinuxFull` with reference path `/repo`. -/
def cfgLinuxFull : CConfig :=
  ⟨"/repo", successDict envLinuxFull "/repo" "/usr/bin/pandoc"⟩

/-- A Windows environment where pandoc and sphinx-build are present but the
LaTeX interpreter path is not a file. -/
def envWindowsNoLatex : Env :=
  { sOSName := "nt", sPlatformSystem := "Windows", sPythonPath := "C:/Python39",
    sPython := "C:/Python39/python.exe", sPythonVersion := "3.9.5",
    get_pandoc_path := Except.ok "C:/pandoc/pandoc.exe",
    isFile := fun s => s != "%ROBOTLATEXPATH%/miktex/bin/x64/pdflatex.exe",
    expandvars := id, normpath := id, abspath := id }

/-- A Windows environment where no queried path exists, so the sphinx-build
executable is missing. -/
def envWindowsNoSphinx : Env :=
  { sOSName := "nt", sPlatformSystem := "Windows", sPythonPath := "C:/Python39",
    sPython := "C:/Python39/python.exe", sPythonVersion := "3.9.5",
    get_pandoc_path := Except.ok "C:/pandoc/pandoc.exe",
    isFile := fun _ => false, expandvars := id, normpath := id, abspath := id }

/-- An unsupported-platform environment (Darwin) in which pandoc discovery
fails. -/
def envDarwinNoPandoc : Env :=
  { sOSName := "posix", sPlatformSystem := "Darwin", sPythonPath := "/usr/bin",
    sPython := "/usr/bin/python3", sPythonVersion := "3.9.5",
    get_pandoc_path := Except.error "No pandoc was found",
    isFile := fun _ => true, expandvars := id, normpath := id, abspath := id }

/-- An unsupported-platform environment (Darwin) in which pandoc discovery
succeeds. -/
def envDarwinPandoc : Env :=
  { sOSName := "posix", sPlatformSystem := "Darwin", sPythonPath := "/usr/bin",
    sPython := "/usr/bin/python3", sPythonVersion := "3.9.5",
    get_pandoc_path := Except.ok "/usr/bin/pandoc",
    isFile := fun _ => true, expandvars := id, normpath := id, abspath := id }

/-- An unsupported-platform environment (SunOS) in which pandoc discovery
fails. -/
def envSunOSNoPandoc : Env :=
  { sOSName := "sunos5", sPlatformSystem := "SunOS", sPythonPath := "/usr/bin",
    sPython := "/usr/bin/python3", sPythonVersion := "3.9.5",
    get_pandoc_path := Except.error "pandoc binary missing",
    isFile := fun _ => true, expandvars := id, normpath := id, abspath := id }

/-- An unsupported-platform environment (FreeBSD) in which pandoc discovery
succeeds. -/
def envFreeBSDPandoc : Env :=
  { sOSName := "posix", sPlatformSystem := "FreeBSD", sPythonPath := "/usr/bin",
    sPython := "/usr/bin/python3", sPythonVersion := "3.9.5",
    get_pandoc_path := Except.ok "/usr/bin/pandoc",
    isFile := fun _ => true, expandvars := id, normpath := id, abspath := id }

/-- A Linux environment where pandoc discovery fails. -/
def envLinuxNoPandoc : Env :=
  { sOSName := "posix", sPlatformSystem := "Linux", sPythonPath := "/usr/bin",
    sPython := "/usr/bin/python3", sPythonVersion := "3.9.5",
    get_pandoc_path := Except.error "Pandoc not installed",
    isFile := fun _ => true, expandvars := id, normpath := id, abspath := id }

/-- Characterization of a successful construction: when pandoc discovery
succeeds, the platform is one of the two supported ones and the computed
sphinx-build path is a file, construction succeeds and produces exactly
`successDict`. -/
theorem init_ok_char (env : Env) (arg sPandoc : String)
    (hp : env.get_pandoc_path = Except.ok sPandoc)
    (hplat : env.sPlatformSystem = "Windows" ∨ env.sPlatformSystem = "Linux")
    (hsb : env.isFile (sphinxBuildOf env) = true) :
    CConfig.init env arg =
      Except.ok ⟨refPathOf env arg, successDict env (refPathOf env arg) sPandoc⟩ := by
  unfold CConfig.init initConfig initConfigTail
  rw [hp]
  rcases hplat with h | h <;>
    simp [sphinxBuildOf, h] at hsb <;>
    simp [h, hsb, initDict, dictSet, dictContains, dictGet, dictGetStr, successDict,
      sphinxBuildOf, latexPathOf, installedPkgOf, refPathOf]

/-- Inversion of a successful construction: it can only arise from a
discoverable pandoc, a supported platform and an existing sphinx-build
executable, and the resulting object is exactly the one `successDict`
describes. -/
theorem init_ok_inv (env : Env) (arg : String) (c : CConfig)
    (h : CConfig.init env arg = Except.ok c) :
    ∃ sPandoc, env.get_pandoc_path = Except.ok sPandoc ∧
      (env.sPlatformSystem = "Windows" ∨ env.sPlatformSystem = "Linux") ∧
      env.isFile (sphinxBuildOf env) = true ∧
      c = ⟨refPathOf env arg, successDict env (refPathOf env arg) sPandoc⟩ := by
  cases hpe : env.get_pandoc_path with
  | error e =>
    unfold CConfig.init initConfig at h
    rw [hpe] at h
    simp at h
  | ok p =>
    refine ⟨p, rfl, ?_⟩
    by_cases hw : env.sPlatformSystem = "Windows"
    · have hc := init_ok_char env arg p hpe (Or.inl hw)
      by_cases hf : env.isFile (sphinxBuildOf env) = true
      · refine ⟨Or.inl hw, hf, ?_⟩
        rw [hc hf] at h
        exact (Except.ok.injEq _ _).mp h.symm
      · exfalso
        unfold CConfig.init initConfig initConfigTail at h
        rw [hpe] at h
        simp only [Bool.not_eq_true] at hf
        simp [sphinxBuildOf, hw] at hf
        simp [hw, hf] at h
    · by_cases hl : env.sPlatformSystem = "Linux"
      · have hc := init_ok_char env arg p hpe (Or.inr hl)
        by_cases hf : env.isFile (sphinxBuildOf env) = true
        · refine ⟨Or.inr hl, hf, ?_⟩
          rw [hc hf] at h
          exact (Except.ok.injEq _ _).mp h.symm
        · exfalso
          unfold CConfig.init initConfig initConfigTail at h
          rw [hpe] at h
          simp only [Bool.not_eq_true] at hf
          simp [sphinxBuildOf, hl] at hf
          simp [hl, hf] at h
      · exfalso
        unfold CConfig.init initConfig at h
        rw [hpe] at h
        simp [hw, hl] at h

/-- Claim C1: for every reference path accepted by the constructor, after a
successful construction the stored `SOURCEDIR` equals
`normpath(R ++ "/doc")` and the stored `BUILDDIR` equals
`normpath(SOURCEDIR ++ "/_build")`, where `R` is the normalized absolute
form of the constructor argument. -/
theorem C1_sourcedir_builddir (env : Env) (arg : String) (c : CConfig)
    (h : CConfig.init env arg = Except.ok c) :
    dictGet c.dictConfig "SOURCEDIR" =
      some (PyVal.vStr (env.normpath (refPathOf env arg ++ "/doc"))) ∧
    dictGet c.dictConfig "BUILDDIR" =
      some (PyVal.vStr (env.normpath (env.normpath (refPathOf env arg ++ "/doc") ++ "/_build"))) := by
  obtain ⟨p, _, _, _, hc⟩ := init_ok_inv env arg c h
  subst hc
  exact ⟨rfl, rfl⟩

/-- Witness for C1 at a concrete Linux environment with reference path
`/repo`: `SOURCEDIR` is `/repo/doc` and `BUILDDIR` is `/repo/doc/_build`. -/
theorem C1_sourcedir_builddir_witness :
    dictGet cfgLinuxFull.dictConfig "SOURCEDIR" = some (PyVal.vStr "/repo/doc") ∧
    dictGet cfgLinuxFull.dictConfig "BUILDDIR" = some (PyVal.vStr "/repo/doc/_build") := by
  have h := C1_sourcedir_builddir envLinuxFull "/repo" cfgLinuxFull (by decide)
  exact h

/-- Claim C2, counterexample: after a successful construction the table
stores a list (under `arInstallRequires`), so it is false that every stored
value is a string (path or descriptive) or null. -/
theorem C2_value_shape_counterexample :
    CConfig.init envLinuxFull "/repo" = Except.ok cfgLinuxFull ∧
    ¬ valuesStrOrNone cfgLinuxFull := by
  refine ⟨by decide, fun hall => ?_⟩
  have h := hall ("arInstallRequires", PyVal.vList ["sphinx", "pypandoc", "colorama"]) (by decide)
  rcases h with ⟨s, hs⟩ | h
  · exact PyVal.noConfusion hs
  · exact PyVal.noConfusion h

/-- Claim C2 as amended: after construction every stored value is a string,
null, or — for the single key `arInstallRequires` — the fixed list of
installation requirements. -/
theorem C2_value_shapes_amended (env : Env) (arg : String) (c : CConfig)
    (h : CConfig.init env arg = Except.ok c) :
    ∀ p ∈ c.dictConfig, (∃ s, p.2 = PyVal.vStr s) ∨ p.2 = PyVal.vNone ∨
      (p.1 = "arInstallRequires" ∧ p.2 = PyVal.vList ["sphinx", "pypandoc", "colorama"]) := by
  obtain ⟨p, _, _, _, hc⟩ := init_ok_inv env arg c h
  subst hc
  intro q hq
  simp only [successDict, List.mem_cons, List.not_mem_nil, or_false] at hq
  rcases hq with rfl|rfl|rfl|rfl|rfl|rfl|rfl|rfl|rfl|rfl|rfl|rfl|rfl|rfl|rfl|rfl|rfl|rfl|rfl|rfl|rfl|rfl|rfl|rfl|rfl|rfl|rfl|rfl|rfl|rfl|rfl|rfl|rfl <;>
    by_cases hf : env.isFile (latexPathOf env) = false <;> simp [hf]

/-- Witness for the amended C2 at a concrete entry of a concrete
configuration (the `sPandoc` entry of the Linux construction). -/
theorem C2_value_shapes_amended_witness :
    (∃ s, PyVal.vStr "/usr/bin/pandoc" = PyVal.vStr s) ∨ PyVal.vStr "/usr/bin/pandoc" = PyVal.vNone ∨
      ("sPandoc" = "arInstallRequires" ∧ PyVal.vStr "/usr/bin/pandoc" = PyVal.vList ["sphinx", "pypandoc", "colorama"]) :=
  C2_value_shapes_amended envLinuxFull "/repo" cfgLinuxFull (by decide)
    ("sPandoc", PyVal.vStr "/usr/bin/pandoc") (by decide)

/-- Claim C3, counterexample: on the unsupported platform Darwin with pandoc
discovery failing, construction fails with pandoc's own message, which is
not the unsupported-OS message and does not even mention the platform name —
so the conversion tool is located before the OS family is checked. -/
theorem C3_order_counterexample :
    CConfig.init envDarwinNoPandoc "/repo" = Except.error "No pandoc was found" ∧
    "No pandoc was found" ≠ osNotSupportedMsg envDarwinNoPandoc ∧
    mentions "No pandoc was found" envDarwinNoPandoc.sPlatformSystem = false := by
  refine ⟨by decide, by decide, by decide⟩

/-- Claim C3 as amended: the validation step locates the conversion tool
first; on an unsupported OS family, the unsupported-OS failure is reported
exactly when tool discovery succeeded, and the tool's failure is reported
when it failed. -/
theorem C3_tool_before_os_amended (env : Env) (arg : String)
    (hW : env.sPlatformSystem ≠ "Windows") (hL : env.sPlatformSystem ≠ "Linux") :
    (∀ sPandoc, env.get_pandoc_path = Except.ok sPandoc →
        CConfig.init env arg = Except.error (osNotSupportedMsg env)) ∧
    (∀ e, env.get_pandoc_path = Except.error e →
        CConfig.init env arg = Except.error e) := by
  constructor
  · intro p hp
    unfold CConfig.init initConfig
    rw [hp]
    simp [hW, hL]
  · intro e he
    unfold CConfig.init initConfig
    rw [he]
    simp

/-- Witness for the amended C3: on Darwin with pandoc present, construction
fails with the unsupported-OS message; on Darwin with pandoc absent, it
fails with pandoc's message. -/
theorem C3_tool_before_os_amended_witness :
    CConfig.init envDarwinPandoc "/repo" = Except.error (osNotSupportedMsg envDarwinPandoc) ∧
    CConfig.init envDarwinNoPandoc "/repo" = Except.error "No pandoc was found" :=
  ⟨(C3_tool_before_os_amended envDarwinPandoc "/repo" (by decide) (by decide)).1 "/usr/bin/pandoc" rfl,
   (C3_tool_before_os_amended envDarwinNoPandoc "/repo" (by decide) (by decide)).2 "No pandoc was found" rfl⟩

/-- Claim C4, counterexample: on the unsupported platform SunOS with pandoc
discovery failing, construction does fail, but the error message is
pandoc's, not one naming the unsupported operating system. -/
theorem C4_message_counterexample :
    CConfig.init envSunOSNoPandoc "/repo" = Except.error "pandoc binary missing" ∧
    "pandoc binary missing" ≠ osNotSupportedMsg envSunOSNoPandoc ∧
    mentions "pandoc binary missing" envSunOSNoPandoc.sPlatformSystem = false := by
  refine ⟨by decide, by decide, by decide⟩

/-- Claim C4 as amended: for every platform other than the two supported
families, construction always fails, so the caller never receives a usable
instance; the failure message names the unsupported operating system
whenever the conversion-tool discovery succeeded. -/
theorem C4_unsupported_os_fails_amended (env : Env) (arg : String)
    (hW : env.sPlatformSystem ≠ "Windows") (hL : env.sPlatformSystem ≠ "Linux") :
    (¬ ∃ c, CConfig.init env arg = Except.ok c) ∧
    (∀ sPandoc, env.get_pandoc_path = Except.ok sPandoc →
        CConfig.init env arg = Except.error (osNotSupportedMsg env)) := by
  constructor
  · rintro ⟨c, hc⟩
    obtain ⟨p, _, hplat, _, _⟩ := init_ok_inv env arg c hc
    rcases hplat with h | h
    · exact hW h
    · exact hL h
  · intro p hp
    unfold CConfig.init initConfig
    rw [hp]
    simp [hW, hL]

/-- Witness for the amended C4 on the unsupported platform FreeBSD with
pandoc present: no construction succeeds, and the failure message names the
operating system. -/
theorem C4_unsupported_os_fails_amended_witness :
    (¬ ∃ c, CConfig.init envFreeBSDPandoc "/repo" = Except.ok c) ∧
    CConfig.init envFreeBSDPandoc "/repo" = Except.error (osNotSupportedMsg envFreeBSDPandoc) :=
  ⟨(C4_unsupported_os_fails_amended envFreeBSDPandoc "/repo" (by decide) (by decide)).1,
   (C4_unsupported_os_fails_amended envFreeBSDPandoc "/repo" (by decide) (by decide)).2 "/usr/bin/pandoc" rfl⟩

/-- Claim C5: whenever pandoc discovery fails, construction fails and the
raised message is exactly the text reported by the discovery routine. -/
theorem C5_pandoc_error_propagated (env : Env) (arg e : String)
    (h : env.get_pandoc_path = Except.error e) :
    CConfig.init env arg = Except.error e := by
  unfold CConfig.init initConfig
  rw [h]
  simp

/-- Witness for C5 on a supported platform (Linux) with pandoc absent. -/
theorem C5_pandoc_error_propagated_witness :
    CConfig.init envLinuxNoPandoc "/repo" = Except.error "Pandoc not installed" :=
  C5_pandoc_error_propagated envLinuxNoPandoc "/repo" "Pandoc not installed" rfl

/-- Claim C6: if the computed sphinx-build path is not an existing file,
construction fails and the failure message identifies that path. -/
theorem C6_missing_sphinx_fails (env : Env) (arg sPandoc : String)
    (hp : env.get_pandoc_path = Except.ok sPandoc)
    (hplat : env.sPlatformSystem = "Windows" ∨ env.sPlatformSystem = "Linux")
    (hsb : env.isFile (sphinxBuildOf env) = false) :
    CConfig.init env arg = Except.error ("Missing Sphinx \x27" ++ sphinxBuildOf env ++ "\x27") := by
  unfold CConfig.init initConfig initConfigTail
  rw [hp]
  rcases hplat with h | h <;>
    simp [sphinxBuildOf, h] at hsb <;>
    simp [h, hsb, sphinxBuildOf]

/-- Witness for C6 on Windows with no existing files: the failure message
names the computed sphinx-build path. -/
theorem C6_missing_sphinx_fails_witness :
    CConfig.init envWindowsNoSphinx "C:/repo" =
      Except.error "Missing Sphinx \x27C:/Python39/Scripts/sphinx-build.exe\x27" := by
  have h := C6_missing_sphinx_fails envWindowsNoSphinx "C:/repo" "C:/pandoc/pandoc.exe" rfl (Or.inl rfl) rfl
  exact h

/-- Claim C7: if the computed LaTeX interpreter path is not an existing file
while all mandatory prerequisites hold, construction succeeds and looking up
`sLaTeXInterpreter` returns null without any unknown-key error report. -/
theorem C7_missing_latex_is_optional (env : Env) (arg sPandoc : String)
    (hp : env.get_pandoc_path = Except.ok sPandoc)
    (hplat : env.sPlatformSystem = "Windows" ∨ env.sPlatformSystem = "Linux")
    (hsb : env.isFile (sphinxBuildOf env) = true)
    (hlx : env.isFile (latexPathOf env) = false) :
    ∃ c, CConfig.init env arg = Except.ok c ∧
      c.Get (some "sLaTeXInterpreter") = ⟨PyVal.vNone, false, false⟩ := by
  refine ⟨_, init_ok_char env arg sPandoc hp hplat hsb, ?_⟩
  simp [CConfig.Get, dictGet, successDict, hlx]

/-- Witness for C7 on Windows where only the LaTeX interpreter path is not a
file. -/
theorem C7_missing_latex_is_optional_witness :
    ∃ c, CConfig.init envWindowsNoLatex "C:/repo" = Except.ok c ∧
      c.Get (some "sLaTeXInterpreter") = ⟨PyVal.vNone, false, false⟩ :=
  C7_missing_latex_is_optional envWindowsNoLatex "C:/repo" "C:/pandoc/pandoc.exe" rfl
    (Or.inl rfl) (by decide) (by decide)

/-- Claim C8: for an omitted name, and for every name not among the
initialized keys, `Get` reports an error to the error stream, prints the
valid table to standard output, and returns null without raising. -/
theorem C8_get_unknown_name (env : Env) (arg : String) (c : CConfig)
    (_h : CConfig.init env arg = Except.ok c) :
    c.Get none = ⟨PyVal.vNone, true, true⟩ ∧
    ∀ n, dictGet c.dictConfig n = none → c.Get (some n) = ⟨PyVal.vNone, true, true⟩ := by
  refine ⟨rfl, fun n hn => ?_⟩
  simp [CConfig.Get, hn]

/-- Witness for C8 on the concrete Linux configuration with the unknown key
`sBogus` and with no name supplied. -/
theorem C8_get_unknown_name_witness :
    cfgLinuxFull.Get none = ⟨PyVal.vNone, true, true⟩ ∧
    cfgLinuxFull.Get (some "sBogus") = ⟨PyVal.vNone, true, true⟩ :=
  ⟨(C8_get_unknown_name envLinuxFull "/repo" cfgLinuxFull (by decide)).1,
   (C8_get_unknown_name envLinuxFull "/repo" cfgLinuxFull (by decide)).2 "sBogus" (by decide)⟩

/-- Claim C9: for every key initialized during construction, `Get` returns
exactly the stored value with no error report, and neither `Get` nor
`PrintConfig` changes the stored table (both leave the object state
unchanged). -/
theorem C9_get_initialized_immutable (env : Env) (arg : String) (c : CConfig)
    (_h : CConfig.init env arg = Except.ok c) (k : String) (v : PyVal)
    (hk : dictGet c.dictConfig k = some v) :
    c.Get (some k) = ⟨v, false, false⟩ ∧
    c.GetS (some k) = (⟨v, false, false⟩, c) ∧
    c.PrintConfigS = (c.PrintConfig, c) := by
  refine ⟨?_, ?_, rfl⟩ <;> simp [CConfig.Get, CConfig.GetS, hk]

/-- Witness for C9 on the concrete Linux configuration at the key
`SOURCEDIR`. -/
theorem C9_get_initialized_immutable_witness :
    cfgLinuxFull.Get (some "SOURCEDIR") = ⟨PyVal.vStr "/repo/doc", false, false⟩ ∧
    cfgLinuxFull.GetS (some "SOURCEDIR") = (⟨PyVal.vStr "/repo/doc", false, false⟩, cfgLinuxFull) ∧
    cfgLinuxFull.PrintConfigS = (cfgLinuxFull.PrintConfig, cfgLinuxFull) :=
  C9_get_initialized_immutable envLinuxFull "/repo" cfgLinuxFull (by decide)
    "SOURCEDIR" (PyVal.vStr "/repo/doc") (by decide)

/-- Claim C10: on Linux, the two installed-package directory entries are
built with the fixed subdirectory `../lib/python3.9/site-packages` under the
interpreter directory, for every environment — in particular for every value
of the running interpreter version `sPythonVersion`, which the computation
never reads. -/
theorem C10_linux_site_packages_fixed (env : Env) (arg : String) (c : CConfig)
    (h : CConfig.init env arg = Except.ok c)
    (hplat : env.sPlatformSystem = "Linux") :
    dictGet c.dictConfig "sInstalledPackageFolder" =
      some (PyVal.vStr (env.sPythonPath ++ "/../lib/python3.9/site-packages/" ++ "RobotResults2DB")) ∧
    dictGet c.dictConfig "sInstalledPackageDocFolder" =
      some (PyVal.vStr (env.sPythonPath ++ "/../lib/python3.9/site-packages/" ++ "RobotResults2DB" ++ "_doc")) := by
  obtain ⟨p, _, _, _, hc⟩ := init_ok_inv env arg c h
  subst hc
  constructor <;> simp [successDict, dictGet, installedPkgOf, hplat]

/-- Witness for C10 on the concrete Linux environment. -/
theorem C10_linux_site_packages_fixed_witness :
    dictGet cfgLinuxFull.dictConfig "sInstalledPackageFolder" =
      some (PyVal.vStr "/usr/bin/../lib/python3.9/site-packages/RobotResults2DB") ∧
    dictGet cfgLinuxFull.dictConfig "sInstalledPackageDocFolder" =
      some (PyVal.vStr "/usr/bin/../lib/python3.9/site-packages/RobotResults2DB_doc") := by
  have h := C10_linux_site_packages_fixed envLinuxFull "/repo" cfgLinuxFull (by decide) rfl
  exact h

end RobotLog2DB
